import Mathlib

/-!
Shallow embedding of `src/app.component.ts` (ai-banner): the UI state held by
`AppComponent`, the three input setters, and the `generateBanners` round
(guard, reset, prompt composition, fan-out aggregation via an all-settled
join, error summary, and the `finally` clearing of the loading flag).
The external generation capability is opaque: a round's environment records,
per request index, whether the promise fulfilled (with an image URL) or
rejected, or that the dispatch/aggregation itself threw.
-/

namespace AiBanner

/-- Result record: `interface Banner` (app.component.ts lines 4-8). -/
structure Banner where
  imageUrl : String
  aspectRatio : String
  name : String
deriving DecidableEq, Repr

/-- Static configuration record: `interface BannerFormat` (lines 12-16). -/
structure BannerFormat where
  name : String
  aspectRatio : String
  description : String
deriving DecidableEq, Repr

/-- Static configuration record: `interface DesignTemplate` (lines 18-23). -/
structure DesignTemplate where
  name : String
  description : String
  icon : String
  promptFragment : String
deriving DecidableEq, Repr

/-- Template "Minimalist & Clean" (lines 41-46). -/
def minimalistClean : DesignTemplate :=
  { name := "Minimalist & Clean"
    description := "Focus on whitespace, simplicity, and the core product."
    icon := "M3.75 6A2.25 2.25 0 001.5 8.25v7.5A2.25 2.25 0 003.75 18h16.5A2.25 2.25 0 0022.5 15.75v-7.5A2.25 2.25 0 0020.25 6H3.75z"
    promptFragment := "The design style must be minimalist and clean. Emphasize negative space, use a simple and muted color palette, and focus on the product as the single hero element. The overall feeling should be modern, airy, and sophisticated." }

/-- Template "Bold & Vibrant" (lines 47-52). -/
def boldVibrant : DesignTemplate :=
  { name := "Bold & Vibrant"
    description := "Use energetic colors and dynamic layouts to grab attention."
    icon := "M3.75 13.5l10.5-11.25L12 10.5h8.25L9.75 21.75 12 13.5H3.75z"
    promptFragment := "The design style must be bold and vibrant. Use a high-contrast, energetic color palette with dynamic shapes and a layout that creates a sense of excitement and movement. The ad should be eye-catching and demand attention." }

/-- Template "Elegant & Luxurious" (lines 53-58). -/
def elegantLuxurious : DesignTemplate :=
  { name := "Elegant & Luxurious"
    description := "Sophisticated look with premium textures and refined fonts."
    icon := "M9.813 15.904L9 18.75l-.813-2.846a4.5 4.5 0 00-3.09-3.09L2.25 12l2.846-.813a4.5 4.5 0 003.09-3.09L9 5.25l.813 2.846a4.5 4.5 0 003.09 3.09L15.75 12l-2.846.813a4.5 4.5 0 00-3.09 3.09z"
    promptFragment := "The design style must be elegant and luxurious. Use a rich, sophisticated color palette (like deep blues, golds, or silvers), premium textures (like marble or silk), and a sense of classic, high-end design. The product should look aspirational and premium." }

/-- Template "Futuristic & Techy" (lines 59-64). -/
def futuristicTechy : DesignTemplate :=
  { name := "Futuristic & Techy"
    description := "Sleek, modern aesthetic with neon accents and abstract graphics."
    icon := "M8.25 3v1.5M4.5 8.25H3m18 0h-1.5M4.5 12H3m18 0h-1.5m-15 3.75H3m18 0h-1.5M8.25 19.5V21M12 3v1.5m0 15V21m3.75-18v1.5m0 15V21m-9-1.5h10.5a2.25 2.25 0 002.25-2.25V8.25a2.25 2.25 0 00-2.25-2.25H8.25a2.25 2.25 0 00-2.25 2.25v7.5a2.25 2.25 0 002.25 2.25z"
    promptFragment := "The design style must be futuristic and tech-focused. Incorporate elements like glowing neon lines, abstract digital patterns, dark backgrounds with bright accents, and a sleek, high-tech aesthetic. The ad should feel innovative and cutting-edge." }

/-- The fixed set of 4 design templates (`readonly designTemplates`, lines 40-65). -/
def designTemplates : List DesignTemplate :=
  [minimalistClean, boldVibrant, elegantLuxurious, futuristicTechy]

/-- The fixed set of 5 banner formats (`readonly bannerFormats`, lines 69-75). -/
def bannerFormats : List BannerFormat :=
  [ { name := "Leaderboard / Banner", aspectRatio := "16:9", description := "Wide format for top of page" }
  , { name := "Medium Rectangle", aspectRatio := "4:3", description := "Versatile, common format" }
  , { name := "Square", aspectRatio := "1:1", description := "Ideal for social media feeds" }
  , { name := "Portrait", aspectRatio := "3:4", description := "Vertical format for sidebars" }
  , { name := "Skyscraper", aspectRatio := "9:16", description := "Tall format for mobile screens" } ]

/-- The mutable component state: the six signals of `AppComponent`
(lines 34-38 and 67). -/
structure AppState where
  productDescription : String
  productUrl : String
  generatedBanners : List Banner
  isLoading : Bool
  error : Option String
  selectedTemplate : DesignTemplate
deriving DecidableEq, Repr

/-- The initial signal values (lines 34-38, 67). -/
def initialState : AppState :=
  { productDescription := "A high-performance electric mountain bike with a sleek carbon fiber frame, long-lasting battery, and all-terrain tires."
    productUrl := "www.electricbikes.com/peak-rider-x"
    generatedBanners := []
    isLoading := false
    error := none
    selectedTemplate := minimalistClean }

/-- `updateDescription` (lines 77-79): stores the event target value in the
description signal. The extracted input value is the argument. -/
def updateDescription (value : String) (s : AppState) : AppState :=
  { s with productDescription := value }

/-- `updateUrl` (lines 81-83): stores the event target value in the URL signal. -/
def updateUrl (value : String) (s : AppState) : AppState :=
  { s with productUrl := value }

/-- `selectTemplate` (lines 85-87): stores the chosen template. -/
def selectTemplate (template : DesignTemplate) (s : AppState) : AppState :=
  { s with selectedTemplate := template }

/-- Terminal state of one dispatched generation promise, as observed by
`Promise.allSettled`: fulfilled with an image URL, or rejected with a reason. -/
inductive GenOutcome where
  | fulfilled (imageUrl : String)
  | rejected (reason : String)
deriving DecidableEq, Repr

/-- Whether an outcome is a fulfillment. -/
def GenOutcome.isFulfilled : GenOutcome → Bool
  | .fulfilled _ => true
  | .rejected _ => false

/-- A value thrown by the dispatch/aggregation machinery itself (the `catch`
branch, lines 138-140): either an `Error` carrying a message, or any other
thrown value. -/
inductive ThrownValue where
  | errorObj (message : String)
  | nonError
deriving DecidableEq, Repr

/-- Environment of one round: either every dispatched promise settles
(outcome per request index), or the dispatch/aggregation throws. -/
inductive DispatchResult where
  | settled (outcomes : Nat → GenOutcome)
  | thrown (e : ThrownValue)

/-- The fixed instruction text opening the prompt template (lines 99-101),
with the template literal's exact internal indentation. -/
def promptPreamble : String :=
  "Create a visually stunning, professional banner ad for a product.\n      The ad should be clean, modern, and eye-catching, suitable for a high-end brand.\n      Avoid text overlays, as text will be added later. Focus on compelling product imagery and a suitable background."

/-- `basePrompt` (lines 98-107): the template literal interpolating the
current description, URL and selected template fragment. -/
def basePrompt (s : AppState) : String :=
  "\n      " ++ promptPreamble
    ++ "\n      \n      Product Description: \"" ++ s.productDescription
    ++ "\"\n      Product Website (for context): \"" ++ s.productUrl
    ++ "\"\n\n      IMPORTANT DESIGN STYLE: " ++ s.selectedTemplate.promptFragment
    ++ "\n    "

/-- The per-format prompt passed to `generateBannerImage` (line 112). -/
def requestPrompt (s : AppState) (format : BannerFormat) : String :=
  basePrompt s ++ "\nGenerate the ad in a " ++ format.aspectRatio
    ++ " aspect ratio, suitable for a \"" ++ format.name ++ "\" ad format."

/-- One dispatched call's arguments: the prompt and aspect ratio handed to
`geminiService.generateBannerImage` (lines 111-113). -/
structure GenRequest where
  prompt : String
  aspectRatio : String
deriving DecidableEq, Repr

/-- The 5 requests dispatched by one accepted round, in configuration order
(`bannerFormats.map`, lines 110-119). -/
def roundRequests (s : AppState) : List GenRequest :=
  bannerFormats.map fun format => ⟨requestPrompt s format, format.aspectRatio⟩

/-- The Banner built in the `.then` continuation (lines 114-118). -/
def mkBanner (imageUrl : String) (format : BannerFormat) : Banner :=
  { imageUrl := imageUrl, aspectRatio := format.aspectRatio, name := format.name }

/-- How one settled result contributes to `successfulBanners` (lines 124-130):
a fulfilled promise at index `p.1` pushes the Banner built for format `p.2`,
a rejected one is only logged. -/
def pickBanner (outcomes : Nat → GenOutcome) (p : Nat × BannerFormat) : Option Banner :=
  match outcomes p.1 with
  | .fulfilled imageUrl => some (mkBanner imageUrl p.2)
  | .rejected _ => none

/-- `successfulBanners` (lines 123-130): the fulfilled results of the
all-settled join, in request (= configuration) order. -/
def aggregate (outcomes : Nat → GenOutcome) : List Banner :=
  bannerFormats.enum.filterMap (pickBanner outcomes)

/-- Number of fulfilled requests among the dispatched ones. -/
def fulfilledCount (outcomes : Nat → GenOutcome) : Nat :=
  ((List.range bannerFormats.length).filter fun i => (outcomes i).isFulfilled).length

/-- JavaScript `String.prototype.trim` as used by the guard (line 90): strip
whitespace from both ends, written structurally over the character list. -/
def jsTrim (s : String) : String :=
  ⟨((s.data.dropWhile Char.isWhitespace).reverse.dropWhile Char.isWhitespace).reverse⟩

/-- The user-visible summary error (line 135). -/
def shortfallMessage (succeeded total : Nat) : String :=
  "Could not generate all banner formats. Only " ++ toString succeeded
    ++ " of " ++ toString total ++ " were successful."

/-- State mutation on acceptance (lines 94-96): loading on, error cleared,
displayed banners cleared. -/
def acceptRound (s : AppState) : AppState :=
  { s with isLoading := true, error := none, generatedBanners := [] }

/-- Aggregation after all promises settled (lines 121-136): replace the
displayed banners with the successful ones and set the summary error when
some format failed. -/
def settleRound (outcomes : Nat → GenOutcome) (s : AppState) : AppState :=
  let successfulBanners := aggregate outcomes
  let s1 := { s with generatedBanners := successfulBanners }
  if successfulBanners.length < bannerFormats.length then
    { s1 with error := some (shortfallMessage successfulBanners.length bannerFormats.length) }
  else s1

/-- The `catch` branch's message (line 140). -/
def thrownMessage : ThrownValue → String
  | .errorObj message => message
  | .nonError => "An unknown error occurred during generation."

/-- `generateBanners` (lines 89-144), also returning the list of requests
dispatched to the external capability. Guard (lines 90-92): loading or blank
description means an immediate return with nothing dispatched. Otherwise the
state is reset (lines 94-96), the 5 requests are dispatched (lines 110-119),
and either all settle and are aggregated (lines 121-136) or the machinery
throws and the `catch` records a message (lines 138-140); the `finally`
(lines 141-143) clears the loading flag on both paths. -/
def generateBannersWith (env : DispatchResult) (s : AppState) : AppState × List GenRequest :=
  if s.isLoading ∨ jsTrim s.productDescription = "" then (s, [])
  else
    let s1 := acceptRound s
    let requests := roundRequests s1
    match env with
    | .settled outcomes => ({ settleRound outcomes s1 with isLoading := false }, requests)
    | .thrown e => ({ s1 with error := some (thrownMessage e), isLoading := false }, requests)

/-- The state transition of `generateBanners` alone. -/
def generateBanners (env : DispatchResult) (s : AppState) : AppState :=
  (generateBannersWith env s).1

/-- Substring containment: `needle` occurs contiguously inside `haystack`. -/
def containsStr (haystack needle : String) : Prop :=
  ∃ a b, haystack = a ++ needle ++ b

/-! ### General lemmas about the embedding -/

lemma containsStr_this (a x b : String) : containsStr (a ++ x ++ b) x :=
  ⟨a, b, rfl⟩

lemma containsStr_suffix (a x : String) : containsStr (a ++ x) x :=
  ⟨a, "", by rw [String.append_empty]⟩

lemma containsStr_append_right (t : String) {s x : String} (h : containsStr s x) :
    containsStr (s ++ t) x := by
  obtain ⟨a, b, rfl⟩ := h
  exact ⟨a, b ++ t, by rw [String.append_assoc, String.append_assoc]⟩

lemma settleRound_generatedBanners (outcomes : Nat → GenOutcome) (s : AppState) :
    (settleRound outcomes s).generatedBanners = aggregate outcomes := by
  simp only [settleRound]
  split <;> rfl

lemma settleRound_error (outcomes : Nat → GenOutcome) (s : AppState) :
    (settleRound outcomes s).error
      = if (aggregate outcomes).length < bannerFormats.length
        then some (shortfallMessage (aggregate outcomes).length bannerFormats.length)
        else s.error := by
  simp only [settleRound]
  split <;> simp_all

lemma generateBannersWith_accepted (env : DispatchResult) (s : AppState)
    (h1 : s.isLoading = false) (h2 : jsTrim s.productDescription ≠ "") :
    generateBannersWith env s
      = (match env with
          | .settled outcomes =>
              ({ settleRound outcomes (acceptRound s) with isLoading := false },
                roundRequests (acceptRound s))
          | .thrown e =>
              ({ acceptRound s with error := some (thrownMessage e), isLoading := false },
                roundRequests (acceptRound s))) := by
  rw [generateBannersWith, if_neg]
  simp [h1, h2]

lemma generateBanners_settled (s : AppState) (outcomes : Nat → GenOutcome)
    (h1 : s.isLoading = false) (h2 : jsTrim s.productDescription ≠ "") :
    generateBanners (.settled outcomes) s
      = { settleRound outcomes (acceptRound s) with isLoading := false } := by
  rw [generateBanners, generateBannersWith_accepted _ s h1 h2]

lemma generateBanners_thrown (s : AppState) (e : ThrownValue)
    (h1 : s.isLoading = false) (h2 : jsTrim s.productDescription ≠ "") :
    generateBanners (.thrown e) s
      = { acceptRound s with error := some (thrownMessage e), isLoading := false } := by
  rw [generateBanners, generateBannersWith_accepted _ s h1 h2]

lemma generateBanners_settled_banners (s : AppState) (outcomes : Nat → GenOutcome)
    (h1 : s.isLoading = false) (h2 : jsTrim s.productDescription ≠ "") :
    (generateBanners (.settled outcomes) s).generatedBanners = aggregate outcomes := by
  rw [generateBanners_settled s outcomes h1 h2]
  exact settleRound_generatedBanners outcomes (acceptRound s)

lemma generateBanners_settled_error (s : AppState) (outcomes : Nat → GenOutcome)
    (h1 : s.isLoading = false) (h2 : jsTrim s.productDescription ≠ "") :
    (generateBanners (.settled outcomes) s).error
      = if (aggregate outcomes).length < bannerFormats.length
        then some (shortfallMessage (aggregate outcomes).length bannerFormats.length)
        else none := by
  rw [generateBanners_settled s outcomes h1 h2]
  show (settleRound outcomes (acceptRound s)).error = _
  rw [settleRound_error]
  rfl

lemma length_filterMap_pickBanner (outcomes : Nat → GenOutcome) :
    ∀ l : List (Nat × BannerFormat),
      (l.filterMap (pickBanner outcomes)).length
        = ((l.map Prod.fst).filter fun i => (outcomes i).isFulfilled).length
  | [] => rfl
  | p :: l => by
      cases h : outcomes p.1 with
      | fulfilled u =>
          simp [List.filterMap_cons, List.filter_cons, pickBanner, h,
            GenOutcome.isFulfilled, length_filterMap_pickBanner outcomes l]
      | rejected r =>
          simp [List.filterMap_cons, List.filter_cons, pickBanner, h,
            GenOutcome.isFulfilled, length_filterMap_pickBanner outcomes l]

lemma aggregate_length (outcomes : Nat → GenOutcome) :
    (aggregate outcomes).length = fulfilledCount outcomes := by
  have h := length_filterMap_pickBanner outcomes bannerFormats.enum
  have he : bannerFormats.enum.map Prod.fst = List.range bannerFormats.length := rfl
  rw [aggregate, h, he, fulfilledCount]

lemma fulfilledCount_le (outcomes : Nat → GenOutcome) :
    fulfilledCount outcomes ≤ bannerFormats.length := by
  have h := List.length_filter_le (fun i => (outcomes i).isFulfilled)
    (List.range bannerFormats.length)
  simpa [fulfilledCount] using h

lemma mem_aggregate (outcomes : Nat → GenOutcome) (b : Banner)
    (hb : b ∈ aggregate outcomes) :
    ∃ p ∈ bannerFormats.enum, outcomes p.1 = GenOutcome.fulfilled b.imageUrl
      ∧ b.aspectRatio = p.2.aspectRatio ∧ b.name = p.2.name := by
  rcases List.mem_filterMap.mp hb with ⟨p, hp, hpick⟩
  rcases ho : outcomes p.1 with u | r
  · rw [pickBanner, ho] at hpick
    obtain rfl : mkBanner u p.2 = b := by simpa using hpick
    exact ⟨p, hp, ho, rfl, rfl⟩
  · rw [pickBanner, ho] at hpick
    simp at hpick

lemma mkBanner_mem_aggregate (outcomes : Nat → GenOutcome) (p : Nat × BannerFormat)
    (u : String) (hp : p ∈ bannerFormats.enum)
    (ho : outcomes p.1 = GenOutcome.fulfilled u) :
    mkBanner u p.2 ∈ aggregate outcomes :=
  List.mem_filterMap.mpr ⟨p, hp, by rw [pickBanner, ho]⟩

lemma filterMap_pickBanner_sublist (outcomes : Nat → GenOutcome) :
    ∀ l : List (Nat × BannerFormat),
      List.Sublist ((l.filterMap (pickBanner outcomes)).map fun b => (b.aspectRatio, b.name))
        (l.map fun p => (p.2.aspectRatio, p.2.name))
  | [] => List.Sublist.refl _
  | p :: l => by
      cases h : outcomes p.1 with
      | fulfilled u =>
          simpa [List.filterMap_cons, pickBanner, h, mkBanner] using
            List.Sublist.cons₂ (p.2.aspectRatio, p.2.name)
              (filterMap_pickBanner_sublist outcomes l)
      | rejected r =>
          simpa [List.filterMap_cons, pickBanner, h] using
            List.Sublist.cons (p.2.aspectRatio, p.2.name)
              (filterMap_pickBanner_sublist outcomes l)

lemma requestPrompt_contains (s : AppState) (f : BannerFormat) :
    containsStr (requestPrompt s f) promptPreamble
      ∧ containsStr (requestPrompt s f) s.productDescription
      ∧ containsStr (requestPrompt s f) s.productUrl
      ∧ containsStr (requestPrompt s f) s.selectedTemplate.promptFragment
      ∧ containsStr (requestPrompt s f) f.aspectRatio
      ∧ containsStr (requestPrompt s f) f.name := by
  rw [requestPrompt, basePrompt]
  refine ⟨?_, ?_, ?_, ?_, ?_, ?_⟩ <;>
    repeat
      first
        | exact containsStr_this _ _ _
        | exact containsStr_suffix _ _
        | apply containsStr_append_right

lemma roundRequests_mem (s : AppState) (req : GenRequest) (hreq : req ∈ roundRequests s) :
    ∃ f ∈ bannerFormats, req = ⟨requestPrompt s f, f.aspectRatio⟩ := by
  rcases List.mem_map.mp hreq with ⟨f, hf, rfl⟩
  exact ⟨f, hf, rfl⟩

/-! ### Claim theorems -/

/-- C1: whenever the in-progress flag is true or the trimmed product
description is empty, `generateBanners` is a no-op: the state (loading flag,
error, displayed banners, description, URL, selected template) is returned
unchanged and no request is dispatched. -/
theorem guard_skip_is_noop (env : DispatchResult) (s : AppState)
    (h : s.isLoading = true ∨ jsTrim s.productDescription = "") :
    generateBanners env s = s ∧ (generateBannersWith env s).2 = [] := by
  have hg : generateBannersWith env s = (s, []) := by
    rcases h with h | h <;> rw [generateBannersWith, if_pos] <;> simp [h]
  exact ⟨by rw [generateBanners, hg], by rw [hg]⟩

/-- Witness for C1 at a concrete in-progress state. -/
theorem guard_skip_is_noop_witness :
    ({ initialState with isLoading := true }.isLoading = true
        ∨ jsTrim { initialState with isLoading := true }.productDescription = "")
    ∧ (generateBanners (.thrown .nonError) { initialState with isLoading := true }
          = { initialState with isLoading := true }
      ∧ (generateBannersWith (.thrown .nonError) { initialState with isLoading := true }).2 = []) :=
  ⟨Or.inl rfl, guard_skip_is_noop (.thrown .nonError) _ (Or.inl rfl)⟩

/-- C2: for every accepted round that reaches aggregation, the error is null
iff all of the 5 configured formats succeeded, and if the success count X is
below the configured count N the error is exactly
"Could not generate all banner formats. Only X of N were successful." -/
theorem settled_error_summary (s : AppState) (outcomes : Nat → GenOutcome)
    (h1 : s.isLoading = false) (h2 : jsTrim s.productDescription ≠ "") :
    bannerFormats.length = 5
    ∧ ((generateBanners (.settled outcomes) s).error = none
        ↔ fulfilledCount outcomes = bannerFormats.length)
    ∧ (fulfilledCount outcomes < bannerFormats.length →
        (generateBanners (.settled outcomes) s).error
          = some ("Could not generate all banner formats. Only "
              ++ toString (fulfilledCount outcomes) ++ " of "
              ++ toString bannerFormats.length ++ " were successful.")) := by
  have herr := generateBanners_settled_error s outcomes h1 h2
  rw [aggregate_length] at herr
  have hle := fulfilledCount_le outcomes
  refine ⟨rfl, ?_, ?_⟩
  · rw [herr]
    by_cases hlt : fulfilledCount outcomes < bannerFormats.length
    · rw [if_pos hlt]
      constructor
      · intro h
        simp at h
      · intro h
        omega
    · rw [if_neg hlt]
      constructor
      · intro _
        omega
      · intro _
        rfl
  · intro hlt
    rw [herr, if_pos hlt]
    rfl

/-- Witness for C2 with every request fulfilled. -/
theorem settled_error_summary_witness :
    (initialState.isLoading = false ∧ jsTrim initialState.productDescription ≠ "")
    ∧ (bannerFormats.length = 5
      ∧ ((generateBanners (.settled fun _ => GenOutcome.fulfilled "img") initialState).error = none
          ↔ fulfilledCount (fun _ => GenOutcome.fulfilled "img") = bannerFormats.length)
      ∧ (fulfilledCount (fun _ => GenOutcome.fulfilled "img") < bannerFormats.length →
          (generateBanners (.settled fun _ => GenOutcome.fulfilled "img") initialState).error
            = some ("Could not generate all banner formats. Only "
                ++ toString (fulfilledCount fun _ => GenOutcome.fulfilled "img") ++ " of "
                ++ toString bannerFormats.length ++ " were successful."))) :=
  ⟨⟨rfl, by decide⟩, settled_error_summary initialState _ rfl (by decide)⟩

/-- C3: every invocation that passes the guard ends with the loading flag
false, on every exit path (all settled — full success, partial or total
failure — and a throw outside the per-request handling). -/
theorem accepted_round_clears_loading (env : DispatchResult) (s : AppState)
    (h1 : s.isLoading = false) (h2 : jsTrim s.productDescription ≠ "") :
    (generateBanners env s).isLoading = false := by
  cases env with
  | settled outcomes => rw [generateBanners_settled s outcomes h1 h2]
  | thrown e => rw [generateBanners_thrown s e h1 h2]

/-- Witness for C3 on a throwing round. -/
theorem accepted_round_clears_loading_witness :
    (initialState.isLoading = false ∧ jsTrim initialState.productDescription ≠ "")
    ∧ (generateBanners (.thrown .nonError) initialState).isLoading = false :=
  ⟨⟨rfl, by decide⟩, accepted_round_clears_loading (.thrown .nonError) initialState rfl (by decide)⟩

/-- C4: after a completed round the displayed collection has one Banner per
fulfilled request and nothing else, at most as many entries as configured
formats, and every banner carries an aspect ratio and name from the
configured format list. -/
theorem settled_banner_invariants (s : AppState) (outcomes : Nat → GenOutcome)
    (h1 : s.isLoading = false) (h2 : jsTrim s.productDescription ≠ "") :
    (generateBanners (.settled outcomes) s).generatedBanners.length = fulfilledCount outcomes
    ∧ (generateBanners (.settled outcomes) s).generatedBanners.length ≤ bannerFormats.length
    ∧ ∀ b ∈ (generateBanners (.settled outcomes) s).generatedBanners,
        ∃ f ∈ bannerFormats, b.aspectRatio = f.aspectRatio ∧ b.name = f.name := by
  rw [generateBanners_settled_banners s outcomes h1 h2, aggregate_length]
  refine ⟨rfl, fulfilledCount_le outcomes, ?_⟩
  intro b hbm
  obtain ⟨p, hp, _, har, hname⟩ := mem_aggregate outcomes b hbm
  have hmem : p.2 ∈ bannerFormats.enum.map Prod.snd := List.mem_map_of_mem Prod.snd hp
  have he : bannerFormats.enum.map Prod.snd = bannerFormats := rfl
  rw [he] at hmem
  exact ⟨p.2, hmem, har, hname⟩

/-- Witness for C4 with one rejected request. -/
theorem settled_banner_invariants_witness :
    (initialState.isLoading = false ∧ jsTrim initialState.productDescription ≠ "")
    ∧ ((generateBanners (.settled fun i => if i = 0 then GenOutcome.rejected "boom"
          else GenOutcome.fulfilled "img") initialState).generatedBanners.length
        = fulfilledCount (fun i => if i = 0 then GenOutcome.rejected "boom"
            else GenOutcome.fulfilled "img")
      ∧ (generateBanners (.settled fun i => if i = 0 then GenOutcome.rejected "boom"
            else GenOutcome.fulfilled "img") initialState).generatedBanners.length
          ≤ bannerFormats.length
      ∧ ∀ b ∈ (generateBanners (.settled fun i => if i = 0 then GenOutcome.rejected "boom"
            else GenOutcome.fulfilled "img") initialState).generatedBanners,
          ∃ f ∈ bannerFormats, b.aspectRatio = f.aspectRatio ∧ b.name = f.name) :=
  ⟨⟨rfl, by decide⟩, settled_banner_invariants initialState _ rfl (by decide)⟩

/-- C5: the displayed banners keep the relative order of the configured
format list: their (aspect ratio, name) sequence is a sublist of the
configured formats' (aspect ratio, name) sequence. -/
theorem settled_preserves_format_order (s : AppState) (outcomes : Nat → GenOutcome)
    (h1 : s.isLoading = false) (h2 : jsTrim s.productDescription ≠ "") :
    List.Sublist
      ((generateBanners (.settled outcomes) s).generatedBanners.map
        fun b => (b.aspectRatio, b.name))
      (bannerFormats.map fun f => (f.aspectRatio, f.name)) := by
  rw [generateBanners_settled_banners s outcomes h1 h2, aggregate]
  have h := filterMap_pickBanner_sublist outcomes bannerFormats.enum
  have he : (bannerFormats.enum.map fun p => (p.2.aspectRatio, p.2.name))
      = bannerFormats.map fun f => (f.aspectRatio, f.name) := rfl
  rw [he] at h
  exact h

/-- Witness for C5 with the middle request rejected. -/
theorem settled_preserves_format_order_witness :
    (initialState.isLoading = false ∧ jsTrim initialState.productDescription ≠ "")
    ∧ List.Sublist
        ((generateBanners (.settled fun i => if i = 2 then GenOutcome.rejected "boom"
            else GenOutcome.fulfilled "img") initialState).generatedBanners.map
          fun b => (b.aspectRatio, b.name))
        (bannerFormats.map fun f => (f.aspectRatio, f.name)) :=
  ⟨⟨rfl, by decide⟩, settled_preserves_format_order initialState _ rfl (by decide)⟩

/-- C6: a format whose request fulfills with image URL `u` yields exactly the
Banner with that URL and the originating format's aspect ratio and name,
whatever the other outcomes. -/
theorem fulfilled_request_banner (s : AppState) (outcomes : Nat → GenOutcome)
    (i : Nat) (f : BannerFormat) (u : String)
    (h1 : s.isLoading = false) (h2 : jsTrim s.productDescription ≠ "")
    (hf : bannerFormats[i]? = some f) (ho : outcomes i = GenOutcome.fulfilled u) :
    ({ imageUrl := u, aspectRatio := f.aspectRatio, name := f.name } : Banner)
      ∈ (generateBanners (.settled outcomes) s).generatedBanners := by
  rw [generateBanners_settled_banners s outcomes h1 h2]
  have hp : (i, f) ∈ bannerFormats.enum := List.mk_mem_enum_iff_getElem?.mpr hf
  exact mkBanner_mem_aggregate outcomes (i, f) u hp ho

/-- Witness for C6 at the "Square" format. -/
theorem fulfilled_request_banner_witness :
    (initialState.isLoading = false ∧ jsTrim initialState.productDescription ≠ ""
      ∧ bannerFormats[2]? = some { name := "Square", aspectRatio := "1:1", description := "Ideal for social media feeds" }
      ∧ (fun _ => GenOutcome.fulfilled "img") 2 = GenOutcome.fulfilled "img")
    ∧ ({ imageUrl := "img", aspectRatio := "1:1", name := "Square" } : Banner)
        ∈ (generateBanners (.settled fun _ => GenOutcome.fulfilled "img")
            initialState).generatedBanners :=
  ⟨⟨rfl, by decide, rfl, rfl⟩,
    fulfilled_request_banner initialState _ 2 _ "img" rfl (by decide) rfl rfl⟩

/-- C7: an accepted round starts from the reset state — loading true, error
null, banners empty, inputs untouched — and the rest of the round runs on
that reset state, so the outcome never blends with stale banners. -/
theorem accepted_round_resets_state (s : AppState)
    (h1 : s.isLoading = false) (h2 : jsTrim s.productDescription ≠ "") :
    (acceptRound s).isLoading = true
    ∧ (acceptRound s).error = none
    ∧ (acceptRound s).generatedBanners = []
    ∧ (acceptRound s).productDescription = s.productDescription
    ∧ (acceptRound s).productUrl = s.productUrl
    ∧ (acceptRound s).selectedTemplate = s.selectedTemplate
    ∧ (∀ outcomes, generateBannersWith (.settled outcomes) s
        = ({ settleRound outcomes (acceptRound s) with isLoading := false },
            roundRequests (acceptRound s)))
    ∧ (∀ e, generateBannersWith (.thrown e) s
        = ({ acceptRound s with error := some (thrownMessage e), isLoading := false },
            roundRequests (acceptRound s)))
    ∧ (∀ outcomes, (generateBanners (.settled outcomes) s).generatedBanners
        = aggregate outcomes)
    ∧ (∀ e, (generateBanners (.thrown e) s).generatedBanners = []) := by
  refine ⟨rfl, rfl, rfl, rfl, rfl, rfl, ?_, ?_, ?_, ?_⟩
  · intro outcomes
    rw [generateBannersWith_accepted _ s h1 h2]
  · intro e
    rw [generateBannersWith_accepted _ s h1 h2]
  · intro outcomes
    exact generateBanners_settled_banners s outcomes h1 h2
  · intro e
    rw [generateBanners_thrown s e h1 h2]
    rfl

/-- Witness for C7 at the initial state. -/
theorem accepted_round_resets_state_witness :
    (initialState.isLoading = false ∧ jsTrim initialState.productDescription ≠ "")
    ∧ ((acceptRound initialState).isLoading = true
      ∧ (acceptRound initialState).error = none
      ∧ (acceptRound initialState).generatedBanners = []
      ∧ (acceptRound initialState).productDescription = initialState.productDescription
      ∧ (acceptRound initialState).productUrl = initialState.productUrl
      ∧ (acceptRound initialState).selectedTemplate = initialState.selectedTemplate
      ∧ (∀ outcomes, generateBannersWith (.settled outcomes) initialState
          = ({ settleRound outcomes (acceptRound initialState) with isLoading := false },
              roundRequests (acceptRound initialState)))
      ∧ (∀ e, generateBannersWith (.thrown e) initialState
          = ({ acceptRound initialState with error := some (thrownMessage e), isLoading := false },
              roundRequests (acceptRound initialState)))
      ∧ (∀ outcomes, (generateBanners (.settled outcomes) initialState).generatedBanners
          = aggregate outcomes)
      ∧ (∀ e, (generateBanners (.thrown e) initialState).generatedBanners = [])) :=
  ⟨⟨rfl, by decide⟩, accepted_round_resets_state initialState rfl (by decide)⟩

/-- C8: every accepted round dispatches exactly one request per configured
format, and each dispatched prompt contains the fixed preamble, the current
description, the current URL, the selected template's fragment, and the
format's aspect ratio and name; selecting another template first embeds that
template's fragment in every dispatched prompt of the round. -/
theorem accepted_round_prompts (s : AppState) (outcomes : Nat → GenOutcome)
    (h1 : s.isLoading = false) (h2 : jsTrim s.productDescription ≠ "") :
    (generateBannersWith (.settled outcomes) s).2 = roundRequests (acceptRound s)
    ∧ (generateBannersWith (.settled outcomes) s).2.length = bannerFormats.length
    ∧ (∀ req ∈ (generateBannersWith (.settled outcomes) s).2,
        ∃ f ∈ bannerFormats,
          req.aspectRatio = f.aspectRatio
          ∧ containsStr req.prompt promptPreamble
          ∧ containsStr req.prompt s.productDescription
          ∧ containsStr req.prompt s.productUrl
          ∧ containsStr req.prompt s.selectedTemplate.promptFragment
          ∧ containsStr req.prompt f.aspectRatio
          ∧ containsStr req.prompt f.name)
    ∧ (∀ t : DesignTemplate,
        ∀ req ∈ (generateBannersWith (.settled outcomes) (selectTemplate t s)).2,
          containsStr req.prompt t.promptFragment) := by
  have hreq : (generateBannersWith (.settled outcomes) s).2
      = roundRequests (acceptRound s) := by
    rw [generateBannersWith_accepted _ s h1 h2]
  refine ⟨hreq, ?_, ?_, ?_⟩
  · rw [hreq]
    simp [roundRequests]
  · intro req hm
    rw [hreq] at hm
    obtain ⟨f, hf, rfl⟩ := roundRequests_mem _ req hm
    obtain ⟨c1, c2, c3, c4, c5, c6⟩ := requestPrompt_contains (acceptRound s) f
    exact ⟨f, hf, rfl, c1, c2, c3, c4, c5, c6⟩
  · intro t req hm
    have h1t : (selectTemplate t s).isLoading = false := h1
    have h2t : jsTrim (selectTemplate t s).productDescription ≠ "" := h2
    rw [generateBannersWith_accepted _ _ h1t h2t] at hm
    obtain ⟨f, hf, rfl⟩ := roundRequests_mem _ req hm
    exact (requestPrompt_contains (acceptRound (selectTemplate t s)) f).2.2.2.1

/-- Witness for C8 at the initial state. -/
theorem accepted_round_prompts_witness :
    (initialState.isLoading = false ∧ jsTrim initialState.productDescription ≠ "")
    ∧ ((generateBannersWith (.settled fun _ => GenOutcome.fulfilled "img") initialState).2
        = roundRequests (acceptRound initialState)
      ∧ (generateBannersWith (.settled fun _ => GenOutcome.fulfilled "img")
          initialState).2.length = bannerFormats.length
      ∧ (∀ req ∈ (generateBannersWith (.settled fun _ => GenOutcome.fulfilled "img")
            initialState).2,
          ∃ f ∈ bannerFormats,
            req.aspectRatio = f.aspectRatio
            ∧ containsStr req.prompt promptPreamble
            ∧ containsStr req.prompt initialState.productDescription
            ∧ containsStr req.prompt initialState.productUrl
            ∧ containsStr req.prompt initialState.selectedTemplate.promptFragment
            ∧ containsStr req.prompt f.aspectRatio
            ∧ containsStr req.prompt f.name)
      ∧ (∀ t : DesignTemplate,
          ∀ req ∈ (generateBannersWith (.settled fun _ => GenOutcome.fulfilled "img")
              (selectTemplate t initialState)).2,
            containsStr req.prompt t.promptFragment)) :=
  ⟨⟨rfl, by decide⟩, accepted_round_prompts initialState _ rfl (by decide)⟩

/-- C9: a failure outside the per-request handling is absorbed: the error
becomes the thrown Error's message, or the generic unknown-error message for
a non-Error value, and the displayed banners stay as set (empty). -/
theorem thrown_failure_captured (s : AppState) (e : ThrownValue)
    (h1 : s.isLoading = false) (h2 : jsTrim s.productDescription ≠ "") :
    ((generateBanners (.thrown e) s).error
        = some (match e with
            | .errorObj m => m
            | .nonError => "An unknown error occurred during generation."))
    ∧ (generateBanners (.thrown e) s).generatedBanners = [] := by
  rw [generateBanners_thrown s e h1 h2]
  refine ⟨?_, rfl⟩
  cases e <;> rfl

/-- Witness for C9 with a non-Error thrown value. -/
theorem thrown_failure_captured_witness :
    (initialState.isLoading = false ∧ jsTrim initialState.productDescription ≠ "")
    ∧ (((generateBanners (.thrown .nonError) initialState).error
          = some (match ThrownValue.nonError with
              | .errorObj m => m
              | .nonError => "An unknown error occurred during generation."))
      ∧ (generateBanners (.thrown .nonError) initialState).generatedBanners = []) :=
  ⟨⟨rfl, by decide⟩, thrown_failure_captured initialState .nonError rfl (by decide)⟩

/-- C10: `updateDescription`, `updateUrl` and `selectTemplate` each modify
only their own field and leave the loading flag, the error, the displayed
banners and the other two input fields unchanged. -/
theorem input_actions_frame (s : AppState) (value url : String) (t : DesignTemplate) :
    ((updateDescription value s).productDescription = value
      ∧ (updateDescription value s).productUrl = s.productUrl
      ∧ (updateDescription value s).generatedBanners = s.generatedBanners
      ∧ (updateDescription value s).isLoading = s.isLoading
      ∧ (updateDescription value s).error = s.error
      ∧ (updateDescription value s).selectedTemplate = s.selectedTemplate)
    ∧ ((updateUrl url s).productUrl = url
      ∧ (updateUrl url s).productDescription = s.productDescription
      ∧ (updateUrl url s).generatedBanners = s.generatedBanners
      ∧ (updateUrl url s).isLoading = s.isLoading
      ∧ (updateUrl url s).error = s.error
      ∧ (updateUrl url s).selectedTemplate = s.selectedTemplate)
    ∧ ((selectTemplate t s).selectedTemplate = t
      ∧ (selectTemplate t s).productDescription = s.productDescription
      ∧ (selectTemplate t s).productUrl = s.productUrl
      ∧ (selectTemplate t s).generatedBanners = s.generatedBanners
      ∧ (selectTemplate t s).isLoading = s.isLoading
      ∧ (selectTemplate t s).error = s.error) :=
  ⟨⟨rfl, rfl, rfl, rfl, rfl, rfl⟩, ⟨rfl, rfl, rfl, rfl, rfl, rfl⟩,
    ⟨rfl, rfl, rfl, rfl, rfl, rfl⟩⟩

end AiBanner
